import Mathlib

/-!
# Verification of `react-twitter-widgets` (src/src/index.js)

A shallow embedding of the coordination logic of the library:

* `runSession` — one run of the `useTwitterWidget` effect body together with
  its asynchronous `loadWidget` continuation (src/src/index.js lines 42-112),
  parameterised by the environment the continuation observes (whether the
  mount ref is present, whether the session's cancellation flag has been set
  by the time the factory call settles, and how the factory call settles).
* `domStep` / `runDom` — the evolution of the mount point's child list under
  effect runs and stale-session child removals.
* the handler registry `HANDLERS` and the static dispatchers `BASE_HANDLERS`
  (lines 117-187), embedded as `Registry`, `registerHandler`, `baseTweet`,
  `baseRetweet`, `baseLike`, plus the once-per-mount event binding
  (`loadEvents`, `mountInstances`).
* a small reference heap for the shallow-clone argument protection of the
  factory call (`cloneShallow`, `invokeFactory`).

JavaScript callbacks are identified by opaque `Nat` tokens; an invocation is
recorded as the pair of the callback token and the list of argument values
passed (the code always calls registered callbacks and `onLoad` with no
arguments, i.e. with `[]`).
-/

namespace TwitterWidgets

/-! ## Mount session (`useTwitterWidget` / `loadWidget`) -/

/-- How the asynchronous part of `loadWidget` settles.

* `loaderThrows e` — `await twWidgetFactory()` rejects with exception `e`
  (the factory function is never invoked);
* `callThrows e` — `await wf[factoryFunctionName](...)` rejects with `e`;
* `noResult` — the factory call resolves with no usable (falsy) result;
* `success` — the factory call resolves with a usable result. -/
inductive FactoryOutcome where
  | loaderThrows (e : Nat)
  | callThrows (e : Nat)
  | noResult
  | success
deriving DecidableEq, Repr

/-- The environment one mount session observes.  The effect body runs
synchronously up to the first `await`; the continuation observes the
mount ref and the closed-over `isCanceled` flag when the awaited call
settles (the two reads at lines 78 and 90-94 happen in one synchronous
continuation, hence see the same values). -/
structure SessionEnv where
  /-- `ref.current` at effect time (lines 51 and 55, same tick). -/
  refAtEffect : Bool
  /-- `ref.current` when the awaited call has settled (line 90). -/
  refAtResolve : Bool
  /-- the session's `isCanceled` flag when the awaited call has settled
  (lines 78 and 94); set by the effect cleanup when dependencies change
  again or the component unmounts. -/
  canceledAtResolve : Bool
  outcome : FactoryOutcome
  /-- the optional completion callback, by identity token. -/
  onLoad : Option Nat
deriving DecidableEq, Repr

/-- The error value stored by `setError`: either a `new Error(msg)` created
by the code itself, or an exception thrown/rejected by the third-party
calls. -/
inductive SessionError where
  | jsError (msg : String)
  | thrown (e : Nat)
deriving DecidableEq, Repr

/-- The message of the error created at lines 79-82. -/
def widgetErrorMessage : String :=
  "Twitter could not create widget. If it is a Timeline or " ++
    "Tweet, ensure the screenName/tweetId exists."

/-- Observable outcome of one mount session. -/
structure SessionResult where
  /-- the error state at the end of the session (the effect body starts
  with `setError(null)`, so `none` unless `setError(e)` ran). -/
  error : Option SessionError
  /-- argument lists of the `onLoad` invocations performed. -/
  onLoadInvocations : List (List Nat)
  /-- whether the tagged child container was created and appended. -/
  appendedTagged : Bool
  /-- whether the canceled path removed the session's own child (line 96). -/
  removedOwnChild : Bool
  /-- number of invocations of `wf[factoryFunctionName]`. -/
  factoryCalls : Nat
deriving DecidableEq, Repr

/-- Lines 90-103: the code after the `try` block — bail out if the mount
ref is gone; if canceled, remove the session's own child and bail out;
otherwise invoke `onLoad()` (no arguments) when provided. -/
def afterTry (env : SessionEnv) (calls : Nat) : SessionResult :=
  if !env.refAtResolve then
    { error := none, onLoadInvocations := [], appendedTagged := true
      removedOwnChild := false, factoryCalls := calls }
  else if env.canceledAtResolve then
    { error := none, onLoadInvocations := [], appendedTagged := true
      removedOwnChild := true, factoryCalls := calls }
  else
    { error := none
      onLoadInvocations := match env.onLoad with | some _ => [[]] | none => []
      appendedTagged := true, removedOwnChild := false, factoryCalls := calls }

/-- One run of the `useTwitterWidget` effect body and its `loadWidget`
continuation (lines 42-112).  `setError(null)` runs first; if the mount
ref is absent the whole sequence is skipped (line 51); otherwise the
tagged child is created and appended before any `await` (lines 59-61),
and the `try/catch` around the two awaited calls stores any raised error
with `setError(e)` (line 86) — note the `catch` does not consult
`isCanceled`; only the no-result error at line 78 does. -/
def runSession (env : SessionEnv) : SessionResult :=
  if env.refAtEffect then
    match env.outcome with
    | .loaderThrows e =>
        { error := some (.thrown e), onLoadInvocations := [], appendedTagged := true
          removedOwnChild := false, factoryCalls := 0 }
    | .callThrows e =>
        { error := some (.thrown e), onLoadInvocations := [], appendedTagged := true
          removedOwnChild := false, factoryCalls := 1 }
    | .noResult =>
        if !env.canceledAtResolve then
          { error := some (.jsError widgetErrorMessage), onLoadInvocations := []
            appendedTagged := true, removedOwnChild := false, factoryCalls := 1 }
        else
          afterTry env 1
    | .success => afterTry env 1
  else
    { error := none, onLoadInvocations := [], appendedTagged := false
      removedOwnChild := false, factoryCalls := 0 }

/-- Rendering of the error branch shared by all six components
(e.g. line 249): `{error && renderError && renderError(error)}` — the
caller-supplied renderer is applied exactly when an error is present and
a renderer is provided.  Rendered output is an opaque `Nat` token. -/
def renderErrorOutput (error : Option SessionError)
    (renderError : Option (SessionError → Nat)) : Option Nat :=
  match error, renderError with
  | some e, some re => some (re e)
  | _, _ => none

/-! ## Mount point children (`removeChildrenWithAttribute` / lines 51-61, 94-98) -/

/-- A child node of the mount point: its identity and whether it carries the
sentinel attribute `twdiv` (line 60 sets it on every container the hook
creates). -/
structure Child where
  id : Nat
  tagged : Bool
deriving DecidableEq, Repr

/-- State of one instance's mount point: current children plus a supply of
fresh node identities. -/
structure DomState where
  children : List Child
  nextId : Nat
deriving DecidableEq, Repr

/-- Modelled from the spec: `removeChildrenWithAttribute` lives in
`src/utils`, which is not under `src/`; per the spec it removes exactly the
child nodes carrying the sentinel marker attribute, leaving unrelated
children untouched. -/
def removeChildrenWithAttribute (cs : List Child) : List Child :=
  cs.filter (fun c => !c.tagged)

/-- Events that touch the mount point's child list.

* `effectRun refPresent` — one run of the effect body: if the ref is present
  (line 51), sweep the tagged children (line 52) and synchronously append a
  fresh tagged container (lines 59-61, before any `await`); otherwise do
  nothing.
* `staleRemove i` — a canceled session's continuation removing its own
  container (`childEl.remove()`, line 96); removing an already-detached node
  is a no-op. -/
inductive DomEvent where
  | effectRun (refPresent : Bool)
  | staleRemove (i : Nat)
deriving DecidableEq, Repr

def domStep (s : DomState) : DomEvent → DomState
  | .effectRun refPresent =>
      if refPresent then
        { children := removeChildrenWithAttribute s.children ++ [⟨s.nextId, true⟩]
          nextId := s.nextId + 1 }
      else s
  | .staleRemove i => { s with children := s.children.filter (fun c => c.id ≠ i) }

def runDom (s : DomState) (es : List DomEvent) : DomState := es.foldl domStep s

/-- Number of children under the mount point carrying the sentinel marker. -/
def taggedCount (s : DomState) : Nat := (s.children.filter (·.tagged)).length

/-! ## Handler registry and dispatchers (`HANDLERS` / `BASE_HANDLERS`) -/

/-- One of the three mappings of `HANDLERS` (lines 117-121): entity id →
registered callback token. -/
def Registry : Type := String → Option Nat

/-- The initial empty mapping (`{}`). -/
def emptyRegistry : Registry := fun _ => none

/-- The three per-kind mappings. -/
structure Handlers where
  tweet : Registry
  retweet : Registry
  like : Registry

def emptyHandlers : Handlers :=
  { tweet := emptyRegistry, retweet := emptyRegistry, like := emptyRegistry }

/-- An interaction event payload as the dispatchers read it:
`intent.data.tweet_id` and `intent.data.source_tweet_id`. -/
structure IntentData where
  tweet_id : String
  source_tweet_id : String
deriving DecidableEq, Repr

structure Intent where
  data : IntentData
deriving DecidableEq, Repr

/-- `BASE_HANDLERS.tweet` (lines 124-131): look up
`HANDLERS.tweet[intent.data.tweet_id]`; if absent, do nothing; otherwise
invoke the callback with no arguments (`handler()`).  The result is the
list of invocations performed: callback token paired with the argument
list passed. -/
def baseTweet (H : Handlers) (intent : Intent) : List (Nat × List Nat) :=
  match H.tweet intent.data.tweet_id with
  | none => []
  | some h => [(h, [])]

/-- `BASE_HANDLERS.retweet` (lines 132-139): identical except it routes by
`intent.data.source_tweet_id`. -/
def baseRetweet (H : Handlers) (intent : Intent) : List (Nat × List Nat) :=
  match H.retweet intent.data.source_tweet_id with
  | none => []
  | some h => [(h, [])]

/-- `BASE_HANDLERS.like` (lines 140-147): routes by
`intent.data.tweet_id`. -/
def baseLike (H : Handlers) (intent : Intent) : List (Nat × List Nat) :=
  match H.like intent.data.tweet_id with
  | none => []
  | some h => [(h, [])]

/-- One registration effect of `useTwitterEvents` (each of lines 164-186):
`if (!cb || !id) return; HANDLERS.kind[id] = cb`.  `id : Option String`
models a possibly-undefined prop; the empty string is falsy in
JavaScript, so it also fails the guard.  Assignment overwrites any prior
entry at that key. -/
def registerHandler (r : Registry) (id : Option String) (cb : Option Nat) : Registry :=
  match id, cb with
  | some i, some h => if i = "" then r else fun s => if s = i then some h else r s
  | _, _ => r

/-! ## Event-bus binding (`useTwitterEvents` first effect, lines 152-162) -/

/-- Identity tokens for the three static dispatcher functions of
`BASE_HANDLERS`; they are module-level constants, so every bind call
passes the same function per kind. -/
def baseTweetRef : Nat := 0
def baseRetweetRef : Nat := 1
def baseLikeRef : Nat := 2

/-- The process-wide log of `events.bind(kind, handler)` calls, in order. -/
structure EventBindState where
  binds : List (String × Nat)
deriving DecidableEq, Repr

def bindCall (s : EventBindState) (kind : String) (h : Nat) : EventBindState :=
  { binds := s.binds ++ [(kind, h)] }

/-- `loadEvents` (lines 153-159): obtain the event bus and bind the three
static dispatchers.  It runs from `useEffect(..., [])`, i.e. once per
component instance mount — there is no process-wide guard. -/
def loadEvents (s : EventBindState) : EventBindState :=
  bindCall (bindCall (bindCall s "tweet" baseTweetRef) "retweet" baseRetweetRef)
    "like" baseLikeRef

/-- Mount `n` component instances that use `useTwitterEvents`: each instance's
first-mount effect runs `loadEvents` once. -/
def mountInstances : Nat → EventBindState → EventBindState
  | 0, s => s
  | n + 1, s => mountInstances n (loadEvents s)

/-- Number of `events.bind` calls recorded for a given event kind. -/
def bindCount (s : EventBindState) (kind : String) : Nat :=
  (s.binds.filter (fun b => b.1 = kind)).length

/-! ## Argument cloning for the factory call (lines 63-74) -/

/-- A one-level JavaScript object: own fields mapped to opaque values
(the code notes there are no nested arrays or objects). -/
def Fields : Type := String → Option Nat

/-- A reference heap: object references are `Nat`s below the allocation
counter `next`. -/
structure Heap where
  objs : Nat → Fields
  next : Nat

/-- Modelled from the spec: `cloneShallow` lives in `src/utils`, which is not
under `src/`; per the spec it copies the object's own fields one level deep
into a fresh object.  Returns the extended heap and the fresh reference. -/
def cloneShallow (h : Heap) (r : Nat) : Heap × Nat :=
  ({ objs := fun i => if i = h.next then h.objs r else h.objs i, next := h.next + 1 },
    h.next)

/-- The third-party factory call mutates the argument objects it receives:
the fields of the two references passed become arbitrary (`fa`, `fo`);
no other object is touched. -/
def factoryMutate (h : Heap) (a o : Nat) (fa fo : Fields) : Heap :=
  { h with objs := fun i => if i = a then fa else if i = o then fo else h.objs i }

/-- Lines 70-74: `wf[factoryFunctionName](cloneShallow(primaryArg), childEl,
cloneShallow(options))` — both object arguments are cloned one level deep
before the call, and the third-party call then mutates what it received. -/
def invokeFactory (h : Heap) (primaryArg opts : Nat) (fa fo : Fields) : Heap :=
  let pa := cloneShallow h primaryArg
  let po := cloneShallow pa.1 opts
  factoryMutate po.1 pa.2 po.2 fa fo

/-! ## Helper lemmas -/

/-- All three registries holding the same single registration; used to state
C10. -/
def singletonHandlers (X : String) (h : Nat) : Handlers where
  tweet := registerHandler emptyRegistry (some X) (some h)
  retweet := registerHandler emptyRegistry (some X) (some h)
  like := registerHandler emptyRegistry (some X) (some h)

theorem sweep_no_tagged (cs : List Child) :
    (removeChildrenWithAttribute cs).filter (·.tagged) = [] := by
  simp only [removeChildrenWithAttribute, List.filter_filter]
  refine List.filter_eq_nil_iff.mpr (fun c _ => ?_)
  cases h : c.tagged <;> simp [h]

theorem length_filter_filter_le (p q : Child → Bool) (l : List Child) :
    (List.filter p (List.filter q l)).length ≤ (List.filter p l).length := by
  induction l with
  | nil => simp
  | cons c l ih =>
      by_cases hq : q c = true <;> by_cases hp : p c = true <;>
        simp only [List.filter_cons, hq, hp, List.length_cons, if_true, if_false,
          Bool.false_eq_true, ite_true, ite_false] <;> omega

theorem taggedCount_domStep (s : DomState) (e : DomEvent) (h : taggedCount s ≤ 1) :
    taggedCount (domStep s e) ≤ 1 := by
  cases e with
  | effectRun rp =>
      cases rp
      · simpa [domStep] using h
      · simp [domStep, taggedCount, List.filter_append, sweep_no_tagged]
  | staleRemove i =>
      refine le_trans ?_ h
      simpa [domStep, taggedCount] using
        length_filter_filter_le (·.tagged) (fun c => decide (c.id ≠ i)) s.children

theorem bindCount_step (s : EventBindState) :
    bindCount (loadEvents s) "tweet" = bindCount s "tweet" + 1 ∧
    bindCount (loadEvents s) "retweet" = bindCount s "retweet" + 1 ∧
    bindCount (loadEvents s) "like" = bindCount s "like" + 1 := by
  refine ⟨?_, ?_, ?_⟩ <;>
    simp [loadEvents, bindCall, bindCount, List.filter_append]

theorem bindCount_mountInstances (n : Nat) (s : EventBindState) :
    bindCount (mountInstances n s) "tweet" = bindCount s "tweet" + n ∧
    bindCount (mountInstances n s) "retweet" = bindCount s "retweet" + n ∧
    bindCount (mountInstances n s) "like" = bindCount s "like" + n := by
  induction n generalizing s with
  | zero => simp [mountInstances]
  | succ n ih =>
      obtain ⟨h1, h2, h3⟩ := bindCount_step s
      obtain ⟨g1, g2, g3⟩ := ih (loadEvents s)
      refine ⟨?_, ?_, ?_⟩ <;> simp [mountInstances, g1, g2, g3, h1, h2, h3] <;> omega

theorem mountInstances_binds_mem (n : Nat) (s : EventBindState)
    (hs : ∀ b ∈ s.binds, b = ("tweet", baseTweetRef) ∨ b = ("retweet", baseRetweetRef) ∨
      b = ("like", baseLikeRef)) :
    ∀ b ∈ (mountInstances n s).binds, b = ("tweet", baseTweetRef) ∨
      b = ("retweet", baseRetweetRef) ∨ b = ("like", baseLikeRef) := by
  induction n generalizing s with
  | zero => simpa [mountInstances] using hs
  | succ n ih =>
      refine ih (loadEvents s) ?_
      intro b hb
      simp only [loadEvents, bindCall, List.mem_append, List.mem_singleton] at hb
      rcases hb with ((hb | hb) | hb) | hb
      · exact hs b hb
      · exact Or.inl hb
      · exact Or.inr (Or.inl hb)
      · exact Or.inr (Or.inr hb)

/-! ## Claim theorems -/

/-- C1, counterexample to the claim as stated: a session whose cancellation
flag is set before its factory call settles, and whose factory call
throws/rejects, still has its error recorded by the `catch` block (line 86
runs `setError(e)` without consulting `isCanceled`), contradicting "no
error state is set ... regardless of whether the underlying factory call
would have ... thrown/rejected". -/
theorem canceled_throwing_session_sets_error :
    ¬ ((runSession ⟨true, true, true, .callThrows 7, some 0⟩).error = none) := by
  decide

/-- C1 (amended): if a session is canceled before its factory call settles,
the completion callback `onLoad` is never invoked, and no error state is
set when the factory call would have succeeded or resolved with no
result; a thrown/rejected factory or loader call, however, still records
its error. -/
theorem canceled_session_suppresses_effects (env : SessionEnv)
    (hc : env.canceledAtResolve = true) :
    (runSession env).onLoadInvocations = [] ∧
    ((env.outcome = .success ∨ env.outcome = .noResult) →
      (runSession env).error = none) := by
  obtain ⟨re, rr, c, o, ol⟩ := env
  cases hc
  cases re <;> cases rr <;> cases o <;> simp_all [runSession, afterTry]

theorem canceled_session_suppresses_effects_witness :
    (runSession ⟨true, true, true, .success, some 5⟩).onLoadInvocations = [] ∧
    (runSession ⟨true, true, true, .success, some 5⟩).error = none :=
  ⟨(canceled_session_suppresses_effects ⟨true, true, true, .success, some 5⟩ rfl).1,
    (canceled_session_suppresses_effects ⟨true, true, true, .success, some 5⟩ rfl).2
      (Or.inl rfl)⟩

/-- C2, counterexample to the claim as stated: the binding effect runs from
`useEffect(..., [])`, i.e. once per component instance mount, with no
process-wide guard; after two instances mount, `events.bind` has been
called twice for the kind "tweet", not exactly once per process. -/
theorem events_bound_twice_with_two_instances :
    bindCount (mountInstances 2 ⟨[]⟩) "tweet" = 2 ∧
    ¬ (bindCount (mountInstances 2 ⟨[]⟩) "tweet" = 1) := by
  decide

/-- C2 (amended): the event bus is obtained and the three static dispatcher
functions are registered once per component instance that uses
`useTwitterEvents` (on that instance's first mount, via an
empty-dependency effect): after `n` instances mount, each of the kinds
"tweet", "retweet" and "like" has been bound exactly `n` times, each time
with the same static dispatcher function. -/
theorem events_bound_once_per_instance (n : Nat) :
    bindCount (mountInstances n ⟨[]⟩) "tweet" = n ∧
    bindCount (mountInstances n ⟨[]⟩) "retweet" = n ∧
    bindCount (mountInstances n ⟨[]⟩) "like" = n ∧
    ∀ b ∈ (mountInstances n ⟨[]⟩).binds,
      b = ("tweet", baseTweetRef) ∨ b = ("retweet", baseRetweetRef) ∨
        b = ("like", baseLikeRef) := by
  obtain ⟨h1, h2, h3⟩ := bindCount_mountInstances n ⟨[]⟩
  exact ⟨by simpa [bindCount] using h1, by simpa [bindCount] using h2,
    by simpa [bindCount] using h3, mountInstances_binds_mem n ⟨[]⟩ (by simp)⟩

/-- C3: starting from a mount point holding at most one sentinel-tagged
child (e.g. a fresh one holding none), any interleaving of effect runs
and stale-session child removals leaves at most one sentinel-tagged
child under the mount point at any time: each effect run sweeps all
tagged children before appending its single new tagged container, and a
stale session's continuation only ever removes a child. -/
theorem at_most_one_tagged_child (es : List DomEvent) (s : DomState)
    (h : taggedCount s ≤ 1) : taggedCount (runDom s es) ≤ 1 := by
  induction es generalizing s with
  | nil => simpa [runDom] using h
  | cons e es ih => exact ih (domStep s e) (taggedCount_domStep s e h)

theorem at_most_one_tagged_child_witness :
    taggedCount ⟨[], 0⟩ ≤ 1 ∧
    taggedCount (runDom ⟨[], 0⟩
      [.effectRun true, .effectRun true, .staleRemove 0, .effectRun true]) ≤ 1 :=
  ⟨by decide,
    at_most_one_tagged_child
      [.effectRun true, .effectRun true, .staleRemove 0, .effectRun true]
      ⟨[], 0⟩ (by decide)⟩

/-- C4: if the factory call resolves with no usable result and the session
was not canceled, the error state becomes the non-null `Error` whose
message says widget creation failed and that the screenName/tweetId may
be invalid, and the component's render applies the caller-supplied error
renderer to exactly that error when one is provided. -/
theorem no_result_sets_error (env : SessionEnv) (re : SessionError → Nat)
    (h1 : env.refAtEffect = true) (h2 : env.canceledAtResolve = false)
    (h3 : env.outcome = .noResult) :
    (runSession env).error = some (.jsError widgetErrorMessage) ∧
    renderErrorOutput (runSession env).error (some re) =
      some (re (.jsError widgetErrorMessage)) := by
  obtain ⟨a, b, c, o, l⟩ := env
  cases h1; cases h2; cases h3
  simp [runSession, renderErrorOutput]

theorem no_result_sets_error_witness :
    (runSession ⟨true, true, false, .noResult, none⟩).error
        = some (.jsError widgetErrorMessage) ∧
    renderErrorOutput (runSession ⟨true, true, false, .noResult, none⟩).error
        (some fun _ => 42) = some 42 :=
  ⟨(no_result_sets_error ⟨true, true, false, .noResult, none⟩ (fun _ => 42)
      rfl rfl rfl).1,
    (no_result_sets_error ⟨true, true, false, .noResult, none⟩ (fun _ => 42)
      rfl rfl rfl).2⟩

/-- C5: registration overwrites: after registering `h1` and then `h2` for
the same non-empty id in one of the mappings, the mapping holds exactly
`h2` at that id, and each of the three dispatchers fires only the
latest-registered callback (once, with no arguments) on a matching
event. -/
theorem last_registration_wins (r : Registry) (i : String) (h1 h2 : Nat)
    (hne : i ≠ "") :
    (registerHandler (registerHandler r (some i) (some h1)) (some i) (some h2)) i
        = some h2 ∧
    ∀ intent : Intent,
      (intent.data.tweet_id = i →
        baseTweet { emptyHandlers with
          tweet := registerHandler (registerHandler r (some i) (some h1))
            (some i) (some h2) } intent = [(h2, [])]) ∧
      (intent.data.source_tweet_id = i →
        baseRetweet { emptyHandlers with
          retweet := registerHandler (registerHandler r (some i) (some h1))
            (some i) (some h2) } intent = [(h2, [])]) ∧
      (intent.data.tweet_id = i →
        baseLike { emptyHandlers with
          like := registerHandler (registerHandler r (some i) (some h1))
            (some i) (some h2) } intent = [(h2, [])]) := by
  refine ⟨by simp [registerHandler, hne], fun intent => ⟨?_, ?_, ?_⟩⟩ <;>
    intro hm <;>
    simp [baseTweet, baseRetweet, baseLike, registerHandler, hne, hm]

theorem last_registration_wins_witness :
    ("1" : String) ≠ "" ∧
    (registerHandler (registerHandler emptyRegistry (some "1") (some 10))
      (some "1") (some 20)) "1" = some 20 ∧
    baseLike { emptyHandlers with
      like := registerHandler (registerHandler emptyRegistry (some "1") (some 10))
        (some "1") (some 20) } ⟨⟨"1", "1"⟩⟩ = [(20, [])] :=
  ⟨by decide,
    (last_registration_wins emptyRegistry "1" 10 20 (by decide)).1,
    ((last_registration_wins emptyRegistry "1" 10 20 (by decide)).2 ⟨⟨"1", "1"⟩⟩).2.2
      rfl⟩

/-- C6: with a handler registered for id `X` under "like", a "like" event
whose payload carries `tweet_id = X` invokes that handler exactly once
with no arguments, while an event carrying a different subject id (or an
id with no registered handler) invokes no handler at all. -/
theorem like_event_routes_to_registered_handler (X : String) (h : Nat)
    (hne : X ≠ "") (i1 i2 : Intent)
    (hm : i1.data.tweet_id = X) (hd : i2.data.tweet_id ≠ X) :
    baseLike { emptyHandlers with
      like := registerHandler emptyHandlers.like (some X) (some h) } i1
        = [(h, [])] ∧
    baseLike { emptyHandlers with
      like := registerHandler emptyHandlers.like (some X) (some h) } i2 = [] := by
  constructor <;>
    simp [baseLike, registerHandler, emptyHandlers, emptyRegistry, hne, hm, hd]

theorem like_event_routes_to_registered_handler_witness :
    ("7" : String) ≠ "" ∧
    baseLike { emptyHandlers with
      like := registerHandler emptyHandlers.like (some "7") (some 3) } ⟨⟨"7", "x"⟩⟩
        = [(3, [])] ∧
    baseLike { emptyHandlers with
      like := registerHandler emptyHandlers.like (some "7") (some 3) } ⟨⟨"8", "x"⟩⟩
        = [] :=
  ⟨by decide,
    (like_event_routes_to_registered_handler "7" 3 (by decide) ⟨⟨"7", "x"⟩⟩
      ⟨⟨"8", "x"⟩⟩ rfl (by decide)).1,
    (like_event_routes_to_registered_handler "7" 3 (by decide) ⟨⟨"7", "x"⟩⟩
      ⟨⟨"8", "x"⟩⟩ rfl (by decide)).2⟩

/-- C7: the factory call receives fresh one-level clones of the primary
argument and the options objects, so however the third-party call
mutates the objects it received, the caller's original objects are
unchanged afterwards; moreover the clones passed in carry exactly the
originals' fields. -/
theorem clone_protects_arguments (h : Heap) (pa po : Nat) (fa fo : Fields)
    (hpa : pa < h.next) (hpo : po < h.next) :
    (invokeFactory h pa po fa fo).objs pa = h.objs pa ∧
    (invokeFactory h pa po fa fo).objs po = h.objs po ∧
    (cloneShallow (cloneShallow h pa).1 po).1.objs h.next = h.objs pa ∧
    (cloneShallow (cloneShallow h pa).1 po).1.objs (h.next + 1) = h.objs po := by
  have n1 : pa ≠ h.next := by omega
  have n2 : pa ≠ h.next + 1 := by omega
  have n3 : po ≠ h.next := by omega
  have n4 : po ≠ h.next + 1 := by omega
  refine ⟨?_, ?_, ?_, ?_⟩ <;>
    simp [invokeFactory, cloneShallow, factoryMutate, n1, n2, n3, n4]

theorem clone_protects_arguments_witness :
    (0 : Nat) < 2 ∧ (1 : Nat) < 2 ∧
    (invokeFactory ⟨fun _ => fun _ => none, 2⟩ 0 1 (fun _ => some 9)
      (fun _ => some 8)).objs 0 = (⟨fun _ => fun _ => none, 2⟩ : Heap).objs 0 ∧
    (invokeFactory ⟨fun _ => fun _ => none, 2⟩ 0 1 (fun _ => some 9)
      (fun _ => some 8)).objs 1 = (⟨fun _ => fun _ => none, 2⟩ : Heap).objs 1 :=
  ⟨by decide, by decide,
    (clone_protects_arguments ⟨fun _ => fun _ => none, 2⟩ 0 1 (fun _ => some 9)
      (fun _ => some 8) (by decide) (by decide)).1,
    (clone_protects_arguments ⟨fun _ => fun _ => none, 2⟩ 0 1 (fun _ => some 9)
      (fun _ => some 8) (by decide) (by decide)).2.1⟩

/-- C8: if the factory call succeeds, the session was not canceled, and the
mount ref still exists, a provided `onLoad` callback is invoked exactly
once, with no arguments. -/
theorem success_invokes_onLoad (env : SessionEnv) (cb : Nat)
    (h1 : env.refAtEffect = true) (h2 : env.refAtResolve = true)
    (h3 : env.canceledAtResolve = false) (h4 : env.outcome = .success)
    (h5 : env.onLoad = some cb) :
    (runSession env).onLoadInvocations = [[]] := by
  obtain ⟨a, b, c, o, l⟩ := env
  cases h1; cases h2; cases h3; cases h4; cases h5
  simp [runSession, afterTry]

theorem success_invokes_onLoad_witness :
    (runSession ⟨true, true, false, .success, some 3⟩).onLoadInvocations = [[]] :=
  success_invokes_onLoad ⟨true, true, false, .success, some 3⟩ 3
    rfl rfl rfl rfl rfl

/-- C9: if the mount ref is absent at effect time, the whole mount sequence
is skipped: no tagged container is created or appended, the factory is
never invoked, and the error state stays null. -/
theorem absent_ref_skips_mount (env : SessionEnv)
    (h : env.refAtEffect = false) :
    (runSession env).appendedTagged = false ∧
    (runSession env).factoryCalls = 0 ∧
    (runSession env).error = none := by
  obtain ⟨a, b, c, o, l⟩ := env
  cases h
  simp [runSession]

theorem absent_ref_skips_mount_witness :
    (runSession ⟨false, true, false, .success, some 1⟩).appendedTagged = false ∧
    (runSession ⟨false, true, false, .success, some 1⟩).factoryCalls = 0 ∧
    (runSession ⟨false, true, false, .success, some 1⟩).error = none :=
  absent_ref_skips_mount ⟨false, true, false, .success, some 1⟩ rfl

/-- C10: with the same non-empty id `X` registered in all three mappings,
the "retweet" dispatcher fires exactly when the payload's
`data.source_tweet_id` equals `X`, while the "tweet" and "like"
dispatchers fire exactly when the payload's `data.tweet_id` equals
`X`. -/
theorem retweet_routes_by_source_tweet_id (X : String) (h : Nat)
    (hne : X ≠ "") (intent : Intent) :
    (baseRetweet (singletonHandlers X h) intent ≠ [] ↔
      intent.data.source_tweet_id = X) ∧
    (baseTweet (singletonHandlers X h) intent ≠ [] ↔
      intent.data.tweet_id = X) ∧
    (baseLike (singletonHandlers X h) intent ≠ [] ↔
      intent.data.tweet_id = X) := by
  refine ⟨?_, ?_, ?_⟩
  · by_cases hc : intent.data.source_tweet_id = X <;>
      simp [baseRetweet, singletonHandlers, registerHandler, emptyRegistry, hne, hc]
  · by_cases hc : intent.data.tweet_id = X <;>
      simp [baseTweet, singletonHandlers, registerHandler, emptyRegistry, hne, hc]
  · by_cases hc : intent.data.tweet_id = X <;>
      simp [baseLike, singletonHandlers, registerHandler, emptyRegistry, hne, hc]

theorem retweet_routes_by_source_tweet_id_witness :
    ("5" : String) ≠ "" ∧
    baseRetweet (singletonHandlers "5" 3) ⟨⟨"a", "5"⟩⟩ ≠ [] ∧
    baseTweet (singletonHandlers "5" 3) ⟨⟨"5", "b"⟩⟩ ≠ [] :=
  ⟨by decide,
    (retweet_routes_by_source_tweet_id "5" 3 (by decide) ⟨⟨"a", "5"⟩⟩).1.mpr rfl,
    (retweet_routes_by_source_tweet_id "5" 3 (by decide) ⟨⟨"5", "b"⟩⟩).2.1.mpr rfl⟩

end TwitterWidgets
